import Mathlib

/-!
Verification of the HTTP protocol component of the circuits repository
(`src/circuits/web/http.py`).

The component is embedded shallowly: byte strings are `List Char` (the
source is Python 2, where `str` is a byte string and all inputs here are
ASCII), the per-connection table `HTTP._clients` is an association list,
and each handler method becomes a pure function from its inputs and the
current table to the new table plus the list of events it pushes.
Python exceptions escaping a handler are modelled with `Except`.

Modules of the repository that the component imports but whose sources
are not part of the verified tree (`wrappers`, `headers`, `errors`,
`constants`, `utils`) and the Python standard library (`urlparse`,
`unquote`, `StringIO`, `int`) are modelled from their documented
behaviour; each such definition carries a doc comment saying so.
-/

/-- Byte strings of the model: Python 2 `str` as a list of characters. -/
abbrev Str := List Char

/-- Converts a Lean string literal to a model byte string. -/
def pstr (s : String) : Str := s.data

/-- Model of Python `s.split(sep, 1)` for a one-character separator:
returns the part before the first occurrence and the remainder, or
`none` when the separator does not occur (in which case tuple
unpacking in the source raises `ValueError`). -/
def splitFirst (c : Char) : Str → Option (Str × Str)
  | [] => none
  | x :: xs =>
    if x = c then some ([], xs)
    else (splitFirst c xs).map (fun p => (x :: p.1, p.2))

/-- Model of Python `s.split(sep)` for a one-character separator. -/
def splitOnChar (c : Char) : Str → List Str
  | [] => [[]]
  | x :: xs =>
    let r := splitOnChar c xs
    if x = c then [] :: r
    else
      match r with
      | s :: ss => (x :: s) :: ss
      | [] => [[x]]

/-- The characters stripped by Python `str.strip()`. -/
def isPySpace (c : Char) : Bool :=
  c = ' ' || c = '\t' || c = '\n' || c = '\r' || c = Char.ofNat 11 || c = Char.ofNat 12

/-- Model of Python `str.strip()`. -/
def pyStrip (s : Str) : Str :=
  ((s.dropWhile isPySpace).reverse.dropWhile isPySpace).reverse

/-- Model of Python `str.lower()` on ASCII byte strings. -/
def pyLower (s : Str) : Str := s.map Char.toLower

/-- Digits of a decimal literal folded to a number; `none` when the
string is empty or holds a non-digit. -/
def digitsToNat (s : Str) : Option Nat :=
  if s = [] then none
  else if s.all Char.isDigit then
    some (s.foldl (fun n c => 10 * n + (c.toNat - 48)) 0)
  else none

/-- Model of Python `int(s)` on strings: optional surrounding
whitespace, optional sign, decimal digits; raises (`none`) otherwise. -/
def pyInt (s : Str) : Option Int :=
  match pyStrip s with
  | [] => none
  | '-' :: rest => (digitsToNat rest).map (fun n => -(n : Int))
  | '+' :: rest => (digitsToNat rest).map (fun n => (n : Int))
  | t => (digitsToNat t).map (fun n => (n : Int))

/-- Python tuple `<` on integer tuples (lexicographic, a strict prefix
is smaller). -/
def listLtInt : List Int → List Int → Bool
  | [], [] => false
  | [], _ :: _ => true
  | _ :: _, [] => false
  | a :: as, b :: bs => if a < b then true else if b < a then false else listLtInt as bs

/-- Python `min(a, b)` on integer tuples: returns `a` on ties. -/
def pyMin (a b : List Int) : List Int := if listLtInt b a then b else a

/-- Decimal digit characters of a natural number (Python `str(n)`). -/
def natToChars (n : Nat) : Str := Nat.toDigits 10 n

/-- Digit characters of an integer (Python `str(i)`). -/
def intToChars (i : Int) : Str :=
  if i < 0 then '-' :: Nat.toDigits 10 i.natAbs else Nat.toDigits 10 i.toNat

/-- Lowercase hexadecimal digits of a natural number: Python
`hex(n)[2:]`. -/
def toHexChars (n : Nat) : Str := Nat.toDigits 16 n

/-- Index of the first occurrence of a character (Python `s.find(c)`
restricted to found/not-found). -/
def idxOf (c : Char) : Str → Option Nat
  | [] => none
  | x :: xs => if x = c then some 0 else (idxOf c xs).map (· + 1)

/-- Index of the last occurrence of a character (Python `s.rfind(c)`). -/
def lastIdxOf (c : Char) (s : Str) : Option Nat :=
  (idxOf c s.reverse).map (fun i => s.length - 1 - i)

/-- Joins parts with a separator (Python `sep.join(parts)`). -/
def joinWith (sep : Str) : List Str → Str
  | [] => []
  | [s] => s
  | s :: rest => s ++ sep ++ joinWith sep rest

/-- Collects a list of optional integers; `none` if any entry failed
(Python `tuple(map(int, parts))` raising on the first bad part). -/
def allSome : List (Option Int) → Option (List Int)
  | [] => some []
  | none :: _ => none
  | some x :: rest => (allSome rest).map (x :: ·)

/-- Result of Python 2 `urlparse.urlparse` on a request target. -/
structure UrlParts where
  scheme : Str
  netloc : Str
  path : Str
  params : Str
  query : Str
  fragment : Str
deriving Repr, DecidableEq

/-- Characters admissible in a URL scheme per Python 2 `urlparse`. -/
def schemeChar (c : Char) : Bool :=
  c.isAlpha || c.isDigit || c = '+' || c = '-' || c = '.'

/-- Model of the scheme-splitting step of Python 2.7 `urlsplit`: a
leading `name:` made of scheme characters is a scheme unless what
follows the colon is a pure digit string (a port). -/
def splitScheme (url : Str) : Str × Str :=
  match idxOf ':' url with
  | some i =>
    if 0 < i then
      let pre := url.take i
      let rest := url.drop (i + 1)
      if pre = pstr "http" then (pre, rest)
      else if pre.all schemeChar && (rest.isEmpty || !(rest.all Char.isDigit)) then
        (pyLower pre, rest)
      else ([], url)
    else ([], url)
  | none => ([], url)

/-- Model of `_splitnetloc` of Python 2 `urlparse`: after a leading
`//`, the authority runs to the next `/`, `?` or `#`. -/
def splitNetloc (url : Str) : Str × Str :=
  match url with
  | '/' :: '/' :: rest =>
    let netloc := rest.takeWhile (fun c => !(c = '/' || c = '?' || c = '#'))
    (netloc, rest.drop netloc.length)
  | _ => ([], url)

/-- Model of `_splitparams` of Python 2 `urlparse`: parameters start at
the first `;` inside the last path segment. -/
def splitParams (url : Str) : Str × Str :=
  let i :=
    match lastIdxOf '/' url with
    | some k => (idxOf ';' (url.drop k)).map (· + k)
    | none => idxOf ';' url
  match i with
  | some j => (url.take j, url.drop (j + 1))
  | none => (url, [])

/-- Schemes for which Python 2 `urlparse` splits parameters; the empty
scheme of an origin-form request target is among them. -/
def usesParams (scheme : Str) : Bool :=
  ((["", "ftp", "hdl", "prospero", "http", "imap", "https", "shttp", "rtsp",
     "rtspu", "sip", "sips", "mms", "sftp", "tel"].map pstr).contains scheme)

/-- Model of Python 2.7 `urlparse.urlparse` as exercised on HTTP
request targets: scheme, then authority after `//`, then the fragment
at the first `#`, then the query at the first `?`, then parameters in
the last path segment. -/
def pyUrlparse (url : Str) : UrlParts :=
  let sr := splitScheme url
  let nr := splitNetloc sr.2
  let fr := match splitFirst '#' nr.2 with
    | some p => p
    | none => (nr.2, [])
  let qr := match splitFirst '?' fr.1 with
    | some p => p
    | none => (fr.1, [])
  let pp :=
    if usesParams sr.1 && qr.1.contains ';' then splitParams qr.1
    else (qr.1, [])
  ⟨sr.1, nr.1, pp.1, pp.2, qr.2, fr.2⟩

/-- Value of a hexadecimal digit character, either case. -/
def hexVal (c : Char) : Option Nat :=
  if c.isDigit then some (c.toNat - 48)
  else if 'a' ≤ c && c ≤ 'f' then some (c.toNat - 87)
  else if 'A' ≤ c && c ≤ 'F' then some (c.toNat - 55)
  else none

/-- Model of Python 2 `urllib.unquote`: each `%` followed by two hex
digits of either case decodes to the numbered byte; a `%` not followed
by two hex digits stays literal. -/
def unquote : Str → Str
  | [] => []
  | '%' :: a :: b :: rest =>
    match hexVal a, hexVal b with
    | some x, some y => Char.ofNat (16 * x + y) :: unquote rest
    | _, _ => '%' :: unquote (a :: b :: rest)
  | c :: rest => c :: unquote rest

/-- Modelled from the spec: `utils.quoted_slash.split`, splitting a
path on pre-decoded slash sequences written `%2F` (the regular
expression is case-insensitive). `utils.py` is not part of the
verified tree. -/
def splitQuotedSlash : Str → List Str
  | '%' :: '2' :: c :: rest =>
    if c = 'F' || c = 'f' then [] :: splitQuotedSlash rest
    else
      match splitQuotedSlash ('2' :: c :: rest) with
      | s :: ss => ('%' :: s) :: ss
      | [] => [['%']]
  | c :: rest =>
    match splitQuotedSlash rest with
    | s :: ss => (c :: s) :: ss
    | [] => [[c]]
  | [] => [[]]

/-- Header mappings: association lists of name/value byte strings. -/
abbrev Headers := List (Str × Str)

/-- Case-insensitive header lookup with a default, the behaviour of
the header mapping's `get` (spec: case-insensitive keys). -/
def hGet (hs : Headers) (k dflt : Str) : Str :=
  match hs.find? (fun kv => pyLower kv.1 == pyLower k) with
  | some kv => kv.2
  | none => dflt

/-- Drops one trailing carriage return from a line split on `\n`. -/
def stripCR (l : Str) : Str :=
  if l.getLast? = some '\r' then l.dropLast else l

/-- One `Name: value` header line; `none` when no colon is present. -/
def parseHeaderLine (l : Str) : Option (Str × Str) :=
  match splitFirst ':' l with
  | some kv => some (pyStrip kv.1, pyStrip kv.2)
  | none => none

/-- Header lines up to the first blank line; returns the mapping and
the remaining lines. -/
def parseHeadersAux : List Str → Headers × List Str
  | [] => ([], [])
  | l :: rest =>
    if stripCR l = [] then ([], rest)
    else
      let r := parseHeadersAux rest
      match parseHeaderLine (stripCR l) with
      | some kv => (kv :: r.1, r.2)
      | none => r

/-- Modelled from the spec: `headers.parseHeaders`, the external
header-block parser — given buffered text it returns a header mapping
and any body bytes already present after the blank line.
`headers.py` is not part of the verified tree. -/
def parseHeaders (s : Str) : Headers × Str :=
  let r := parseHeadersAux (splitOnChar '\n' s)
  (r.1, joinWith (pstr "\n") r.2)

/-- Model of the `StringIO` request-body buffer: contents plus the
current read/write position. -/
structure BodyBuf where
  buf : Str
  pos : Nat
deriving Repr, DecidableEq

/-- `StringIO.write`: overwrite at the current position (in this
component every write happens at the end) and advance it. -/
def BodyBuf.write (b : BodyBuf) (s : Str) : BodyBuf :=
  { buf := b.buf.take b.pos ++ s ++ b.buf.drop (b.pos + s.length),
    pos := b.pos + s.length }

/-- `StringIO.tell`. -/
def BodyBuf.tell (b : BodyBuf) : Nat := b.pos

/-- `StringIO.seek(0)`. -/
def BodyBuf.seek0 (b : BodyBuf) : BodyBuf := { b with pos := 0 }

/-- Modelled from the spec: `wrappers.Request` — method, scheme,
decoded-target fields, client protocol version as parsed, the header
mapping (initially empty), an append-then-rewind body buffer, and the
`handled` flag, initially false. `wrappers.py` is not part of the
verified tree. -/
structure Request where
  sock : Nat
  method : Str
  scheme : Str
  path : Str
  protocol : List Int
  qs : Str
  headers : Headers
  body : BodyBuf
  handled : Bool
deriving Repr, DecidableEq

/-- Fresh request, as built by `wrappers.Request(sock, method, scheme,
path, protocol, qs)`. -/
def mkRequest (sock : Nat) (method scheme path : Str) (protocol : List Int)
    (qs : Str) : Request :=
  { sock := sock, method := method, scheme := scheme, path := path,
    protocol := protocol, qs := qs, headers := [], body := ⟨[], 0⟩,
    handled := false }

/-- A response body: absent, a fixed payload, a live chunk iterator
(a Python generator, truthy even when exhausted), or an unspecified
truthy object used as an opaque body replacement. -/
inductive RBody where
  | noneB : RBody
  | strB : Str → RBody
  | iterB : List Str → RBody
  | objB : RBody
deriving Repr, DecidableEq

/-- Python truthiness of a response body. -/
def bodyTruthy : RBody → Bool
  | .noneB => false
  | .strB s => !s.isEmpty
  | .iterB _ => true
  | .objB => true

/-- `body.next()`: the next chunk and the advanced iterator; `none`
models `StopIteration`. -/
def bodyNext : RBody → Option Str × RBody
  | .iterB (c :: cs) => (some c, .iterB cs)
  | .iterB [] => (none, .iterB [])
  | b => (none, b)

/-- Modelled from the spec: `wrappers.Response` — socket, optional
originating request (absent for protocol-level replies), status line,
headers, body, output protocol string, and the four flags `chunked`,
`stream`, `close`, `done`.  `bodyCloseCalls` counts `body.close()`
resource releases.  The stored request is the value at pairing time;
nothing in this component reads it back. -/
structure Response where
  sock : Nat
  request : Option Request
  status : Str
  rheaders : Headers
  body : RBody
  protocol : Str
  close : Bool
  done : Bool
  chunked : Bool
  stream : Bool
  bodyCloseCalls : Nat
deriving Repr, DecidableEq

/-- Fresh response with the wrappers defaults: status `200 OK`,
protocol `HTTP/1.1`, all flags false. -/
def mkResponse (sock : Nat) (req : Option Request) : Response :=
  { sock := sock, request := req, status := pstr "200 OK", rheaders := [],
    body := .noneB, protocol := pstr "HTTP/1.1", close := false,
    done := false, chunked := false, stream := false, bodyCloseCalls := 0 }

/-- Modelled from the spec: `constants.RESPONSES`, the table of short
and long reason phrases. `constants.py` is not part of the verified
tree; the entries used by the claims are listed. -/
def RESPONSES (code : Nat) : Option (Str × Str) :=
  if code = 100 then some (pstr "Continue", pstr "Request received, please continue")
  else if code = 200 then some (pstr "OK", pstr "Request fulfilled, document follows")
  else if code = 400 then some (pstr "Bad Request", pstr "Bad request syntax or unsupported method")
  else if code = 404 then some (pstr "Not Found", pstr "Nothing matches the given URI")
  else if code = 413 then some (pstr "Request Entity Too Large", pstr "Entity is too large")
  else if code = 500 then some (pstr "Internal Server Error", pstr "Server got itself in trouble")
  else if code = 505 then some (pstr "HTTP Version Not Supported", pstr "Cannot fulfill request")
  else none

/-- `RESPONSES.get(code, ("???", "???"))`. -/
def responsesGet (code : Nat) : Str × Str :=
  (RESPONSES code).getD (pstr "???", pstr "???")

/-- Modelled from the spec: `errors.HTTPError` — a value carrying the
request, the response passed in with its status pre-populated from the
code, the numeric code, and an optional message. `errors.py` is not
part of the verified tree. -/
structure HTTPErr where
  request : Request
  response : Response
  code : Nat
  message : Option Str
deriving Repr, DecidableEq

/-- Builds an `HTTPError`, pre-populating the shared response's status
line from the code's standard reason phrase. -/
def mkHTTPErr (req : Request) (resp : Response) (code : Nat) : HTTPErr :=
  { request := req,
    response := { resp with
      status := natToChars code ++ ' ' :: (responsesGet code).1,
      body := .strB ((responsesGet code).2) },
    code := code, message := none }

/-- Events pushed by the component: `httperror`, `response`, the
completed-request notification toward the application layer, wire
writes, connection closes, the stream pump event, and a marker
recording a `body.close()` resource release. -/
inductive Ev where
  | httperror : HTTPErr → Ev
  | responseEv : Response → Ev
  | requestEv : Request → Response → Ev
  | write : Nat → Str → Ev
  | closeEv : Nat → Ev
  | streamEv : Response → Option Str → Ev
  | releaseEv : Nat → Ev
deriving Repr, DecidableEq

/-- The Connection Table `HTTP._clients`: connection identifier to the
in-flight (Request, Response) pair. -/
abbrev ClientsMap := List (Nat × Request × Response)

/-- Table lookup (`sock in self._clients` plus the read). -/
def cmLookup : ClientsMap → Nat → Option (Request × Response)
  | [], _ => none
  | (k, v) :: rest, sock => if k = sock then some v else cmLookup rest sock

/-- Table deletion (`del self._clients[sock]`). -/
def cmErase (m : ClientsMap) (sock : Nat) : ClientsMap :=
  m.filter (fun e => e.1 ≠ sock)

/-- Table insertion (`self._clients[sock] = request, response`). -/
def cmInsert (m : ClientsMap) (sock : Nat) (v : Request × Response) : ClientsMap :=
  (sock, v) :: cmErase m sock

/-- Python exceptions that can escape a handler of this component. -/
inductive PyErr where
  | valueError : PyErr
  | typeError : PyErr
  | indexError : PyErr
deriving Repr, DecidableEq

/-- The `Content-Length` header name. -/
def clKey : Str := pstr "Content-Length"

/-- The `Connection` header name. -/
def connKey : Str := pstr "Connection"

/-- The `Expect` header name. -/
def expectKey : Str := pstr "Expect"

/-- The pieces of a parsed request line (`HTTP.read`, lines 126-131):
the stripped line is split into method, target and protocol token, the
target is run through `urlparse`, and the protocol token after
`HTTP/` is parsed into an integer tuple.  Failing splits or integer
parses raise `ValueError` in the source. -/
structure FirstLine where
  method : Str
  scheme : Str
  path : Str
  params : Str
  qs : Str
  frag : Str
  protocol : List Int
  rest : Str
deriving Repr, DecidableEq

/-- Parses the request line of a fresh delivery: `data.split("\n", 1)`,
`strip`, `split(" ", 2)`, `urlparse`, and `tuple(map(int,
protocol[5:].split(".")))`. -/
def parseFirst (data : Str) : Except PyErr FirstLine :=
  match splitFirst '\n' data with
  | none => .error .valueError
  | some lr =>
    match splitFirst ' ' (pyStrip lr.1) with
    | none => .error .valueError
    | some mr =>
      match splitFirst ' ' mr.2 with
      | none => .error .valueError
      | some pp =>
        let u := pyUrlparse pp.1
        match allSome ((splitOnChar '.' (pp.2.drop 5)).map pyInt) with
        | none => .error .valueError
        | some protocol =>
          .ok ⟨mr.1, u.scheme, u.path, u.params, u.query, u.fragment, protocol, lr.2⟩

namespace HTTP

/-- `HTTP.simple` (lines 196-214): build a standalone response for a
protocol-level reply and push it on the `response` channel; a 413
under an HTTP/1.1 response protocol is forced to close. -/
def simple (sock : Nat) (code : Nat) (message : Str) : Response × List Ev :=
  let short := (responsesGet code).1
  let message := if message = [] then short else message
  let status := natToChars code ++ ' ' :: message
  let r0 := { mkResponse sock none with body := .strB message, status := status }
  let r1 :=
    if status.take 3 = pstr "413" ∧ r0.protocol = pstr "HTTP/1.1" then
      { r0 with
        close := true
        rheaders := r0.rheaders ++ [(connKey, pstr "close")] }
    else r0
  (r1, [Ev.responseEv r1])

/-- The persistence decision of `HTTP.read` (lines 182-190): the flag
is only ever set, never cleared; the test is on the client's protocol
tuple being exactly `(1, 1)`. -/
def computeClose (protocol : List Int) (hs : Headers) (prev : Bool) : Bool :=
  let conn := pyLower (hGet hs connKey [])
  if protocol = [1, 1] then
    if conn = pstr "close" then true else prev
  else
    if conn = pstr "keep-alive" then prev else true

/-- Completion handling of `HTTP.read` (lines 182-194): decide
persistence, rewind the body, store the pair and push the
completed-request event toward the application layer. -/
def completeRequest (st : ClientsMap) (sock : Nat) (req : Request)
    (resp : Response) : Except PyErr (ClientsMap × List Ev) :=
  let resp1 := { resp with close := computeClose req.protocol req.headers resp.close }
  let req1 := { req with body := req.body.seek0 }
  .ok (cmInsert st sock (req1, resp1), [Ev.requestEv req1 resp1])

/-- The continuation branch of `HTTP.read` (lines 119-124): append the
chunk to the body; if the buffered length differs from the declared
Content-Length, wait for more input, else complete. -/
def readCont (st : ClientsMap) (sock : Nat) (req : Request) (resp : Response)
    (data : Str) : Except PyErr (ClientsMap × List Ev) :=
  let req1 := { req with body := req.body.write data }
  match pyInt (hGet req1.headers clKey (pstr "0")) with
  | none => .error .valueError
  | some cl =>
    if (req1.body.tell : Int) = cl then completeRequest st sock req1 resp
    else .ok (cmInsert st sock (req1, resp), [])

/-- The fresh-request branch of `HTTP.read` (lines 125-194), taking the
server protocol tuple as a parameter.  The request/response pair is
registered before the fragment and version checks; response mutations
made through the shared reference are mirrored into the stored pair. -/
def readFresh (sp : Int × Int) (st : ClientsMap) (sock : Nat) (data : Str) :
    Except PyErr (ClientsMap × List Ev) :=
  match parseFirst data with
  | .error e => .error e
  | .ok fl =>
    let req0 := mkRequest sock fl.method fl.scheme fl.path fl.protocol fl.qs
    let resp0 := mkResponse sock (some req0)
    if fl.frag ≠ [] then
      let err := mkHTTPErr req0 resp0 400
      .ok (cmInsert st sock (req0, err.response), [Ev.httperror err])
    else
      let path1 := if fl.params ≠ [] then fl.path ++ ';' :: fl.params else fl.path
      let _decodedPath := joinWith (pstr "%2F") ((splitQuotedSlash path1).map unquote)
      match fl.protocol with
      | [] => .error .indexError
      | pmaj :: _ =>
        if pmaj ≠ sp.1 then
          let err := mkHTTPErr req0 resp0 505
          .ok (cmInsert st sock (req0, err.response), [Ev.httperror err])
        else
          match pyMin fl.protocol [sp.1, sp.2] with
          | [a, b] =>
            let resp1 := { resp0 with
              protocol := pstr "HTTP/" ++ intToChars a ++ '.' :: intToChars b }
            let hb := parseHeaders fl.rest
            let req1 := { req0 with headers := hb.1, body := req0.body.write hb.2 }
            if hGet hb.1 expectKey [] = pstr "100-continue" then
              .ok (cmInsert st sock (req1, resp1), (simple sock 100 []).2)
            else
              match pyInt (hGet hb.1 clKey (pstr "0")) with
              | none => .error .valueError
              | some cl =>
                if (req1.body.tell : Int) = cl then completeRequest st sock req1 resp1
                else .ok (cmInsert st sock (req1, resp1), [])
          | _ => .error .typeError

/-- `HTTP.read` (lines 105-194): evict a finished pair, then either
continue assembling the in-flight request or start a fresh one. -/
def read (sp : Int × Int) (st : ClientsMap) (sock : Nat) (data : Str) :
    Except PyErr (ClientsMap × List Ev) :=
  let st1 :=
    match cmLookup st sock with
    | some rr => if rr.2.done then cmErase st sock else st
    | none => st
  match cmLookup st1 sock with
  | some rr => readCont st1 sock rr.1 rr.2 data
  | none => readFresh sp st1 sock data

/-- A sequence of in-order byte-chunk deliveries on one connection,
collecting all pushed events. -/
def readMany (sp : Int × Int) (sock : Nat) : ClientsMap → List Str →
    Except PyErr (ClientsMap × List Ev)
  | st, [] => .ok (st, [])
  | st, d :: ds =>
    match read sp st sock d with
    | .error e => .error e
    | .ok r =>
      match readMany sp sock r.1 ds with
      | .error e => .error e
      | .ok r2 => .ok (r2.1, r.2 ++ r2.2)

/-- `HTTP.httperror` (lines 216-224), the default error hook: push the
error's own response. -/
def httperror (_req : Request) (resp : Response) (_status : Nat) : List Ev :=
  [Ev.responseEv resp]

/-- Possible return values of a dispatched handler or of the error
hook, as discriminated by `HTTP._handleError` and
`HTTP.request_success_or_filtered`. -/
inductive RetVal where
  | noneV : RetVal
  | strV : Str → RetVal
  | httpErrorV : HTTPErr → RetVal
  | responseV : Response → RetVal
  | boolV : Bool → RetVal
  | objV : RetVal
deriving Repr, DecidableEq

/-- Python truthiness of a handler return value. -/
def truthy : RetVal → Bool
  | .noneV => false
  | .strV s => !s.isEmpty
  | .httpErrorV _ => true
  | .responseV _ => true
  | .boolV b => b
  | .objV => true

/-- `HTTP._handleError` (lines 45-57): `send` the error to the
overridable `httperror` hook (whose own pushes are `hookPushes` and
whose return value is `retval`); a textual return becomes the error
response's body and is emitted, an `HTTPError` return has its response
emitted, any other truthy return only passes the assertion, and a
falsy return adds nothing. -/
def handleErrorWith (err : HTTPErr) (hookPushes : List Ev) (retval : RetVal) :
    List Ev :=
  if truthy retval then
    match retval with
    | .strV s => hookPushes ++ [Ev.responseEv { err.response with body := .strB s }]
    | .httpErrorV e => hookPushes ++ [Ev.responseEv e.response]
    | _ => hookPushes
  else hookPushes

/-- `_handleError` under the default (non-overridden) hook, which
pushes the error's own response and returns `None`. -/
def handleErrorDefault (err : HTTPErr) : List Ev :=
  handleErrorWith err (httperror err.request err.response err.code) .noneV

/-- `HTTP.request_success_or_filtered` (lines 226-237): a truthy return
value marks the request handled; an `HTTPError` goes to the error
adapter, a `Response` is emitted directly, a boolean does nothing
further, anything else replaces the response body and is emitted. -/
def request_success_or_filtered (req : Request) (resp : Response)
    (retval : RetVal) : Request × Response × List Ev :=
  if truthy retval then
    let req1 := { req with handled := true }
    match retval with
    | .httpErrorV e => (req1, resp, handleErrorDefault e)
    | .responseV r => (req1, resp, [Ev.responseEv r])
    | .boolV _ => (req1, resp, [])
    | .strV s =>
      let resp1 := { resp with body := .strB s }
      (req1, resp1, [Ev.responseEv resp1])
    | .objV =>
      let resp1 := { resp with body := .objB }
      (req1, resp1, [Ev.responseEv resp1])
    | .noneV => (req1, resp, [])
  else (req, resp, [])

/-- The end-of-stream branch of `HTTP.stream` (lines 71-79): release
the body once, write the terminal chunk if chunked, schedule the close
if required, and set `done`. -/
def streamEnd (resp : Response) : Response × List Ev :=
  let r1 :=
    if bodyTruthy resp.body then
      { resp with bodyCloseCalls := resp.bodyCloseCalls + 1 }
    else resp
  let e1 := if bodyTruthy resp.body then [Ev.releaseEv resp.sock] else []
  let e2 := if r1.chunked then [Ev.write r1.sock (pstr "0\r\n\r\n")] else []
  let e3 := if r1.close then [Ev.closeEv r1.sock] else []
  ({ r1 with done := true }, e1 ++ e2 ++ e3)

/-- `HTTP.stream` (lines 59-79): frame and write a non-empty element,
pull the next one and reschedule the pump; an empty or absent element
ends the stream. -/
def streamStep (resp : Response) (dat : Option Str) : Response × List Ev :=
  match dat with
  | some d =>
    if d = [] then streamEnd resp
    else
      let payload :=
        if resp.chunked then toHexChars d.length ++ pstr "\r\n" ++ d ++ pstr "\r\n"
        else d
      let w := [Ev.write resp.sock payload]
      if bodyTruthy resp.body ∧ resp.done = false then
        let nb := bodyNext resp.body
        let resp1 := { resp with body := nb.2 }
        (resp1, w ++ [Ev.streamEv resp1 nb.1])
      else (resp, w)
  | none => streamEnd resp

/-- Modelled from the spec: `wrappers.Response.output` serializes the
status line and header block; it is modelled as the single write of
the status line (no claim inspects the header block).  `wrappers.py`
is not part of the verified tree. -/
def output (r : Response) : List Str :=
  [r.protocol ++ ' ' :: r.status ++ pstr "\r\n"]

/-- `HTTP.response` (lines 81-97): write the serialized head; for a
streaming body pull one element and schedule the pump without setting
`done`; otherwise write the terminal chunk if chunked but not
streaming, schedule the close if required, and set `done`. -/
def response (resp : Response) : Response × List Ev :=
  let ws := (output resp).map (Ev.write resp.sock)
  if resp.stream ∧ bodyTruthy resp.body then
    let nb := bodyNext resp.body
    let resp1 := { resp with body := nb.2 }
    (resp1, ws ++ [Ev.streamEv resp1 nb.1])
  else
    let t := if resp.chunked ∧ resp.stream = false then
        [Ev.write resp.sock (pstr "0\r\n\r\n")] else []
    let c := if resp.close then [Ev.closeEv resp.sock] else []
    ({ resp with done := true }, ws ++ t ++ c)

end HTTP

/-- The payload of the first scheduled `Stream` event in a pushed
event list, if any. -/
def nextStream : List Ev → Option (Option Str)
  | [] => none
  | Ev.streamEv _ d :: _ => some d
  | _ :: rest => nextStream rest

/-- Drops scheduling events, keeping the externally visible ones. -/
def wireEvs (evs : List Ev) : List Ev :=
  evs.filter (fun e => match e with | .streamEv _ _ => false | _ => true)

/-- Runs the cooperative stream pump to completion (fuel-bounded; each
step consumes one scheduled `Stream` event). -/
def runStream : Nat → Response → Option Str → Response × List Ev
  | 0, r, _ => (r, [])
  | n + 1, r, d =>
    let se := HTTP.streamStep r d
    match nextStream se.2 with
    | none => (se.1, wireEvs se.2)
    | some d2 =>
      let rest := runStream n se.1 d2
      (rest.1, wireEvs se.2 ++ rest.2)

/-- Emits a chunked streaming response whose lazy body yields the given
chunks, then pumps the stream to completion, collecting the external
events in order. -/
def runChunkedStream (chunks : List Str) : Response × List Ev :=
  let r0 := { mkResponse 0 none with
              chunked := true
              stream := true
              body := .iterB chunks }
  let re := HTTP.response r0
  match nextStream re.2 with
  | none => (re.1, wireEvs re.2)
  | some d =>
    let rest := runStream (chunks.length + 2) re.1 d
    (rest.1, wireEvs re.2 ++ rest.2)

/-- The request built at line 132 from a parsed request line. -/
def freshReq (sock : Nat) (fl : FirstLine) : Request :=
  mkRequest sock fl.method fl.scheme fl.path fl.protocol fl.qs

/-- The response paired with a fresh request at line 133. -/
def freshResp (sock : Nat) (fl : FirstLine) : Response :=
  mkResponse sock (some (freshReq sock fl))

/-- The in-flight request after the first delivery's headers and
body remainder have been stored (lines 171-173). -/
def assembledReq (sock : Nat) (fl : FirstLine) (hs : Headers) (b0 : Str) :
    Request :=
  { freshReq sock fl with headers := hs, body := ⟨b0, b0.length⟩ }

/-- The in-flight response after protocol negotiation wrote the output
protocol string (line 169), for negotiated minor tuple `(a, b)`. -/
def negoResp (sock : Nat) (fl : FirstLine) (a b : Int) : Response :=
  { freshResp sock fl with
    protocol := pstr "HTTP/" ++ intToChars a ++ '.' :: intToChars b }

/-- True on a read outcome that pushed a single `httperror` event whose
code is 400 although the request's parsed major version is 2 (different
from the server's); used to exhibit a 400 on a major-version-mismatch
request. -/
def mismatchGot400 : Except PyErr (ClientsMap × List Ev) → Bool
  | .ok (_, [Ev.httperror e]) =>
    e.code == 400 && e.request.protocol.head? == some 2
  | _ => false

/-- A request target with a fragment and protocol `HTTP/2.0`: its major
version differs from the server's. -/
def c1CexData : Str := pstr "GET /p#f HTTP/2.0\nHost: a\r\n\r\n"

/-- True on a read outcome that pushed no completed-request event even
though the stored request's body holds exactly its declared
Content-Length of 2 bytes. -/
def bodyFullNotDispatched : Except PyErr (ClientsMap × List Ev) → Bool
  | .ok (st, evs) =>
    (evs.all fun e => match e with | .requestEv _ _ => false | _ => true) &&
    (match cmLookup st 0 with
     | some rr =>
       pyInt (hGet rr.1.headers clKey (pstr "0")) == some 2 &&
         rr.1.body.buf.length == 2
     | none => false)
  | .error _ => false

/-- A request carrying `Expect: 100-continue` whose complete 2-byte
body already arrives with the first delivery. -/
def c2CexData : Str :=
  pstr "GET / HTTP/1.1\nExpect: 100-continue\r\nContent-Length: 2\r\n\r\nab"

/-- True on a read outcome that pushed a single 400 `httperror` while
an entry for connection 0 is present in the resulting table. -/
def got400WithEntry : Except PyErr (ClientsMap × List Ev) → Bool
  | .ok (st, [Ev.httperror e]) => e.code == 400 && (cmLookup st 0).isSome
  | _ => false

/-- A request target with a fragment. -/
def c3CexData : Str := pstr "GET /p#f HTTP/1.1\nHost: a\r\n\r\n"

/-- True on a read outcome that dispatched a completed request whose
negotiated protocol (the tuple minimum against the server's `(1, 1)`)
is HTTP/1.1 and that carries no `Connection` header, yet whose
response was marked to close. -/
def negotiated11ClosedAnyway : Except PyErr (ClientsMap × List Ev) → Bool
  | .ok (_, [Ev.requestEv rq rs]) =>
    pyMin rq.protocol [1, 1] == [1, 1] &&
      hGet rq.headers connKey [] == [] && rs.close
  | _ => false

/-- A complete `HTTP/1.2` request without a `Connection` header. -/
def c4CexData : Str := pstr "GET / HTTP/1.2\nContent-Length: 0\r\n\r\n"

/-- A delivery whose request line has no protocol token: the
`split(" ", 2)` unpacking in the source raises `ValueError`. -/
def c5CexData : Str := pstr "GET /\nHost: a\r\n\r\n"

/-- A concrete request for the error-adapter scenarios. -/
def c8Req : Request := mkRequest 0 (pstr "GET") [] (pstr "/") [1, 1] []

/-- The error value handed to the adapter in the scenarios. -/
def c8Err : HTTPErr := mkHTTPErr c8Req (mkResponse 0 (some c8Req)) 404

/-- A distinct response returned by the overridden hook. -/
def c8HookResp : Response := mkResponse 5 none

/-!
Theorems.  The first group characterizes the table operations, the
body buffer, and each branch of `HTTP.read`; the claim theorems follow.
-/

theorem cmLookup_cmInsert_self (m : ClientsMap) (k : Nat) (v : Request × Response) :
    cmLookup (cmInsert m k v) k = some v := by
  simp [cmInsert, cmLookup]

theorem cmErase_cons_self (m : ClientsMap) (k : Nat) (v : Request × Response) :
    cmErase ((k, v) :: m) k = cmErase m k := by
  simp [cmErase]

theorem cmErase_idem (m : ClientsMap) (k : Nat) :
    cmErase (cmErase m k) k = cmErase m k := by
  simp [cmErase, List.filter_filter]

theorem cmInsert_cmInsert (m : ClientsMap) (k : Nat) (v w : Request × Response) :
    cmInsert (cmInsert m k v) k w = cmInsert m k w := by
  simp [cmInsert, cmErase_cons_self, cmErase_idem]

theorem bodyWrite_empty (s : Str) : BodyBuf.write ⟨[], 0⟩ s = ⟨s, s.length⟩ := by
  simp [BodyBuf.write]

theorem bodyWrite_at_end (b : BodyBuf) (s : Str) (h : b.pos = b.buf.length) :
    b.write s = ⟨b.buf ++ s, b.buf.length + s.length⟩ := by
  simp [BodyBuf.write, h, List.take_length, List.drop_eq_nil_of_le]

theorem pyInt_zero : pyInt (pstr "0") = some 0 := by decide

theorem hGet_nil (k d : Str) : hGet [] k d = d := rfl

theorem read_fresh_case (sp : Int × Int) (st : ClientsMap) (sock : Nat)
    (data : Str) (hlk : cmLookup st sock = none) :
    HTTP.read sp st sock data = HTTP.readFresh sp st sock data := by
  simp [HTTP.read, hlk]

theorem read_cont_case (sp : Int × Int) (st : ClientsMap) (sock : Nat)
    (data : Str) (req : Request) (resp : Response)
    (hlk : cmLookup st sock = some (req, resp)) (hdone : resp.done = false) :
    HTTP.read sp st sock data = HTTP.readCont st sock req resp data := by
  simp [HTTP.read, hlk, hdone]

theorem readCont_incomplete (st : ClientsMap) (sock : Nat) (req : Request)
    (resp : Response) (data : Str) (L : Int)
    (hcl : pyInt (hGet req.headers clKey (pstr "0")) = some L)
    (hne : ((req.body.pos + data.length : Nat) : Int) ≠ L) :
    HTTP.readCont st sock req resp data =
      .ok (cmInsert st sock ({ req with body := req.body.write data }, resp), []) := by
  have hne2 : ((req.body.pos : Int) + (data.length : Int)) ≠ L := by exact_mod_cast hne
  simp [HTTP.readCont, hcl, BodyBuf.tell, BodyBuf.write, hne2]

theorem readCont_complete (st : ClientsMap) (sock : Nat) (req : Request)
    (resp : Response) (data : Str) (L : Int)
    (hcl : pyInt (hGet req.headers clKey (pstr "0")) = some L)
    (heq : ((req.body.pos + data.length : Nat) : Int) = L) :
    HTTP.readCont st sock req resp data =
      .ok (cmInsert st sock
        ({ req with body := ⟨(req.body.write data).buf, 0⟩ },
         { resp with close := HTTP.computeClose req.protocol req.headers resp.close }),
       [Ev.requestEv { req with body := ⟨(req.body.write data).buf, 0⟩ }
          { resp with close := HTTP.computeClose req.protocol req.headers resp.close }]) := by
  have heq2 : ((req.body.pos : Int) + (data.length : Int)) = L := by exact_mod_cast heq
  simp [HTTP.readCont, hcl, BodyBuf.tell, BodyBuf.write, heq2, HTTP.completeRequest,
    BodyBuf.seek0]

theorem readFresh_parse_error (sp : Int × Int) (st : ClientsMap) (sock : Nat)
    (data : Str) (e : PyErr) (hp : parseFirst data = .error e) :
    HTTP.readFresh sp st sock data = .error e := by
  simp [HTTP.readFresh, hp]

theorem readFresh_frag (sp : Int × Int) (st : ClientsMap) (sock : Nat)
    (data : Str) (fl : FirstLine) (hp : parseFirst data = .ok fl)
    (hf : fl.frag ≠ []) :
    HTTP.readFresh sp st sock data =
      .ok (cmInsert st sock
            (freshReq sock fl,
             (mkHTTPErr (freshReq sock fl) (freshResp sock fl) 400).response),
           [Ev.httperror (mkHTTPErr (freshReq sock fl) (freshResp sock fl) 400)]) := by
  simp [HTTP.readFresh, hp, hf, freshReq, freshResp]

theorem readFresh_505 (sp : Int × Int) (st : ClientsMap) (sock : Nat)
    (data : Str) (fl : FirstLine) (pmaj : Int) (ptl : List Int)
    (hp : parseFirst data = .ok fl) (hfrag : fl.frag = [])
    (hproto : fl.protocol = pmaj :: ptl) (hne : pmaj ≠ sp.1) :
    HTTP.readFresh sp st sock data =
      .ok (cmInsert st sock
            (freshReq sock fl,
             (mkHTTPErr (freshReq sock fl) (freshResp sock fl) 505).response),
           [Ev.httperror (mkHTTPErr (freshReq sock fl) (freshResp sock fl) 505)]) := by
  simp [HTTP.readFresh, hp, hfrag, hproto, hne, freshReq, freshResp]

theorem simple_snd (sock code : Nat) (msg : Str) :
    (HTTP.simple sock code msg).2 = [Ev.responseEv (HTTP.simple sock code msg).1] := rfl

theorem readFresh_expect (sp : Int × Int) (st : ClientsMap) (sock : Nat)
    (data : Str) (fl : FirstLine) (ptl : List Int) (a b : Int)
    (hs : Headers) (b0 : Str)
    (hp : parseFirst data = .ok fl) (hfrag : fl.frag = [])
    (hproto : fl.protocol = sp.1 :: ptl)
    (hmp : pyMin fl.protocol [sp.1, sp.2] = [a, b])
    (hph : parseHeaders fl.rest = (hs, b0))
    (hexp : hGet hs expectKey [] = pstr "100-continue") :
    HTTP.readFresh sp st sock data =
      .ok (cmInsert st sock (assembledReq sock fl hs b0, negoResp sock fl a b),
           [Ev.responseEv (HTTP.simple sock 100 []).1]) := by
  rw [hproto] at hmp
  simp [HTTP.readFresh, hp, hfrag, hproto, hmp, hph, hexp, assembledReq, negoResp,
    freshReq, freshResp, mkRequest, mkResponse, bodyWrite_empty, simple_snd]

theorem readFresh_incomplete (sp : Int × Int) (st : ClientsMap) (sock : Nat)
    (data : Str) (fl : FirstLine) (ptl : List Int) (a b : Int)
    (hs : Headers) (b0 : Str) (L : Int)
    (hp : parseFirst data = .ok fl) (hfrag : fl.frag = [])
    (hproto : fl.protocol = sp.1 :: ptl)
    (hmp : pyMin fl.protocol [sp.1, sp.2] = [a, b])
    (hph : parseHeaders fl.rest = (hs, b0))
    (hexp : ¬ hGet hs expectKey [] = pstr "100-continue")
    (hcl : pyInt (hGet hs clKey (pstr "0")) = some L)
    (hne : (b0.length : Int) ≠ L) :
    HTTP.readFresh sp st sock data =
      .ok (cmInsert st sock (assembledReq sock fl hs b0, negoResp sock fl a b), []) := by
  rw [hproto] at hmp
  simp [HTTP.readFresh, hp, hfrag, hproto, hmp, hph, hexp, hcl, hne, assembledReq,
    negoResp, freshReq, freshResp, mkRequest, mkResponse, bodyWrite_empty, BodyBuf.tell]

theorem readFresh_complete (sp : Int × Int) (st : ClientsMap) (sock : Nat)
    (data : Str) (fl : FirstLine) (ptl : List Int) (a b : Int)
    (hs : Headers) (b0 : Str) (L : Int)
    (hp : parseFirst data = .ok fl) (hfrag : fl.frag = [])
    (hproto : fl.protocol = sp.1 :: ptl)
    (hmp : pyMin fl.protocol [sp.1, sp.2] = [a, b])
    (hph : parseHeaders fl.rest = (hs, b0))
    (hexp : ¬ hGet hs expectKey [] = pstr "100-continue")
    (hcl : pyInt (hGet hs clKey (pstr "0")) = some L)
    (heq : (b0.length : Int) = L) :
    HTTP.readFresh sp st sock data =
      .ok (cmInsert st sock
            ({ assembledReq sock fl hs b0 with body := ⟨b0, 0⟩ },
             { negoResp sock fl a b with
                 close := HTTP.computeClose fl.protocol hs false }),
           [Ev.requestEv { assembledReq sock fl hs b0 with body := ⟨b0, 0⟩ }
              { negoResp sock fl a b with
                  close := HTTP.computeClose fl.protocol hs false }]) := by
  rw [hproto] at hmp
  simp [HTTP.readFresh, hp, hfrag, hproto, hmp, hph, hexp, hcl, heq, assembledReq,
    negoResp, freshReq, freshResp, mkRequest, mkResponse, bodyWrite_empty, BodyBuf.tell,
    HTTP.completeRequest, BodyBuf.seek0]

theorem readMany_nil (sp : Int × Int) (sock : Nat) (st : ClientsMap) :
    HTTP.readMany sp sock st [] = .ok (st, []) := rfl

theorem readMany_cons_ok (sp : Int × Int) (sock : Nat) (st st1 st2 : ClientsMap)
    (d : Str) (ds : List Str) (evs evs2 : List Ev)
    (h1 : HTTP.read sp st sock d = .ok (st1, evs))
    (h2 : HTTP.readMany sp sock st1 ds = .ok (st2, evs2)) :
    HTTP.readMany sp sock st (d :: ds) = .ok (st2, evs ++ evs2) := by
  simp only [HTTP.readMany, h1, h2]

theorem readMany_buffered_silent (sp : Int × Int) (sock : Nat) :
    ∀ (ds : List Str) (st : ClientsMap) (req : Request) (resp : Response),
      cmLookup st sock = some (req, resp) → resp.done = false →
      req.headers = [] →
      (∀ d ∈ ds, d ≠ []) →
      ∃ st2, HTTP.readMany sp sock st ds = .ok (st2, [])
  | [], st, _, _, _, _, _, _ => ⟨st, rfl⟩
  | d :: ds, st, req, resp, hlk, hdone, hhd, hne => by
    have hd : d ≠ [] := hne d (List.mem_cons_self d ds)
    have hlen : 0 < d.length := List.length_pos.mpr hd
    have hstep : HTTP.read sp st sock d =
        .ok (cmInsert st sock ({ req with body := req.body.write d }, resp), []) := by
      rw [read_cont_case sp st sock d req resp hlk hdone]
      refine readCont_incomplete st sock req resp d 0 ?_ ?_
      · rw [hhd]; exact pyInt_zero
      · intro hcon; omega
    obtain ⟨st2, hrest⟩ := readMany_buffered_silent sp sock ds
      (cmInsert st sock ({ req with body := req.body.write d }, resp))
      { req with body := req.body.write d } resp
      (cmLookup_cmInsert_self _ _ _) hdone hhd
      (fun x hx => hne x (List.mem_cons_of_mem d hx))
    exact ⟨st2, by simpa using readMany_cons_ok sp sock st _ _ d ds [] [] hstep hrest⟩

theorem readMany_assemble (sp : Int × Int) (sock : Nat) :
    ∀ (cs : List Str) (st : ClientsMap) (req : Request) (resp : Response) (L : Int),
      cmLookup st sock = some (req, resp) → resp.done = false →
      pyInt (hGet req.headers clKey (pstr "0")) = some L →
      req.body.pos = req.body.buf.length →
      ((req.body.buf.length + (cs.map List.length).sum : Nat) : Int) = L →
      (∀ k, k < cs.length →
        ((req.body.buf.length + ((cs.take k).map List.length).sum : Nat) : Int) ≠ L) →
      cs ≠ [] →
      HTTP.readMany sp sock st cs = .ok
        (cmInsert st sock
          ({ req with body := ⟨req.body.buf ++ cs.flatten, 0⟩ },
           { resp with close := HTTP.computeClose req.protocol req.headers resp.close }),
         [Ev.requestEv { req with body := ⟨req.body.buf ++ cs.flatten, 0⟩ }
            { resp with close := HTTP.computeClose req.protocol req.headers resp.close }])
  | [c], st, req, resp, L, hlk, hdone, hcl, hpos, htot, _, _ => by
    simp only [List.map_cons, List.map_nil, List.sum_cons, List.sum_nil] at htot
    have heq : ((req.body.pos + c.length : Nat) : Int) = L := by omega
    have hstep := read_cont_case sp st sock c req resp hlk hdone
    rw [readCont_complete st sock req resp c L hcl heq] at hstep
    rw [bodyWrite_at_end req.body c hpos] at hstep
    simp [HTTP.readMany, hstep]
  | c :: c2 :: cs, st, req, resp, L, hlk, hdone, hcl, hpos, htot, hpre, _ => by
    have hpre1 := hpre 1 (by simp)
    simp only [List.take_succ_cons, List.take_zero, List.map_cons, List.map_nil,
      List.sum_cons, List.sum_nil] at hpre1
    have hne : ((req.body.pos + c.length : Nat) : Int) ≠ L := by omega
    have hstep := read_cont_case sp st sock c req resp hlk hdone
    rw [readCont_incomplete st sock req resp c L hcl hne] at hstep
    have hbody : req.body.write c = ⟨req.body.buf ++ c, req.body.buf.length + c.length⟩ :=
      bodyWrite_at_end req.body c hpos
    have hrest := readMany_assemble sp sock (c2 :: cs)
      (cmInsert st sock ({ req with body := req.body.write c }, resp))
      { req with body := req.body.write c } resp L
      (cmLookup_cmInsert_self _ _ _) hdone hcl
      (by simp [hbody])
      (by
        simp only [hbody, List.length_append, List.map_cons, List.sum_cons]
        simp only [List.map_cons, List.sum_cons] at htot
        push_cast at htot ⊢
        omega)
      (by
        intro k hk
        have := hpre (k + 1) (by simpa using Nat.succ_lt_succ hk)
        simp only [List.take_succ_cons, List.map_cons, List.sum_cons] at this
        simp only [hbody, List.length_append]
        push_cast at this ⊢
        omega)
      (by simp)
    rw [cmInsert_cmInsert] at hrest
    have hjoin : (req.body.write c).buf ++ (c2 :: cs).flatten = req.body.buf ++ (c :: c2 :: cs).flatten := by
      simp [hbody, List.flatten]
    rw [hjoin] at hrest
    have hall := readMany_cons_ok sp sock st _ _ c (c2 :: cs) [] _ hstep hrest
    simpa using hall

/-- C9: for a success or filtered dispatch outcome whose non-empty
(truthy) return value is a boolean, the request is marked
`handled = true` and nothing else happens: no `Response` event is
pushed and the response (in particular its body) is unchanged. -/
theorem c9_boolean_retval (req : Request) (resp : Response) :
    HTTP.request_success_or_filtered req resp (.boolV true) =
      ({ req with handled := true }, resp, []) := rfl

/-- C8 counterexample: the claim says a `Response` value returned by
the error hook is emitted instead; on the code, a plain `Response`
return value falls into the bare assertion branch and nothing at all
is emitted. -/
theorem c8_counterexample :
    HTTP.handleErrorWith c8Err [] (.responseV c8HookResp) = [] := rfl

/-- C8 (amended): `_handleError` delivers the error to the overridable
hook; a non-empty textual return becomes the error response's body and
is emitted; an `HTTPError` return has its response emitted; a
`Response` (or any other non-string truthy) return is ignored beyond
the assertion; a `None` return adds nothing, so under the default hook
— which itself pushes the error's pre-built response — that response
is emitted unchanged. -/
theorem c8_error_hook_routing (err : HTTPErr) (hookPushes : List Ev) (s : Str)
    (e2 : HTTPErr) (r : Response) :
    HTTP.handleErrorWith err hookPushes (.strV s) =
      (if s = [] then hookPushes
       else hookPushes ++ [Ev.responseEv { err.response with body := .strB s }]) ∧
    HTTP.handleErrorWith err hookPushes (.httpErrorV e2) =
      hookPushes ++ [Ev.responseEv e2.response] ∧
    HTTP.handleErrorWith err hookPushes (.responseV r) = hookPushes ∧
    HTTP.handleErrorWith err hookPushes .noneV = hookPushes ∧
    HTTP.handleErrorDefault err = [Ev.responseEv err.response] := by
  refine ⟨?_, rfl, rfl, rfl, rfl⟩
  by_cases h : s = []
  · simp [HTTP.handleErrorWith, HTTP.truthy, h]
  · simp [HTTP.handleErrorWith, HTTP.truthy, h]

/-- C6: pumping the chunked streaming response with body chunks
`abc`, `de`, end-of-stream writes (after the response head) exactly
the frames `3\r\nabc\r\n`, `2\r\nde\r\n`, `0\r\n\r\n` in that order,
releases the body exactly once — after the empty element and before
the terminal chunk — and ends with `done = true`. -/
theorem c6_chunked_stream :
    (runChunkedStream [pstr "abc", pstr "de", pstr ""]).2 =
      [Ev.write 0 (pstr "HTTP/1.1 200 OK\r\n"),
       Ev.write 0 (pstr "3\r\nabc\r\n"),
       Ev.write 0 (pstr "2\r\nde\r\n"),
       Ev.releaseEv 0,
       Ev.write 0 (pstr "0\r\n\r\n")] ∧
    (runChunkedStream [pstr "abc", pstr "de", pstr ""]).1.bodyCloseCalls = 1 ∧
    (runChunkedStream [pstr "abc", pstr "de", pstr ""]).1.done = true := by
  refine ⟨by decide, by decide, by decide⟩

/-- C5 counterexample: the claim says every byte sequence is processed
without an unhandled exception and yields a complete response; a
delivery whose request line lacks a protocol token makes the
`split(" ", 2)` unpacking raise `ValueError`, which escapes `read`
with nothing emitted. -/
theorem c5_counterexample :
    HTTP.read (1, 1) [] 0 c5CexData = .error .valueError := rfl

/-- The fresh-request branch raising out of `int()` on a non-numeric
Content-Length header value (lines 178 and 122 of the source). -/
theorem readFresh_badCL (sp : Int × Int) (st : ClientsMap) (sock : Nat)
    (data : Str) (fl : FirstLine) (ptl : List Int) (a b : Int)
    (hs : Headers) (b0 : Str)
    (hp : parseFirst data = .ok fl) (hfrag : fl.frag = [])
    (hproto : fl.protocol = sp.1 :: ptl)
    (hmp : pyMin fl.protocol [sp.1, sp.2] = [a, b])
    (hph : parseHeaders fl.rest = (hs, b0))
    (hexp : ¬ hGet hs expectKey [] = pstr "100-continue")
    (hcl : pyInt (hGet hs clKey (pstr "0")) = none) :
    HTTP.readFresh sp st sock data = .error .valueError := by
  rw [hproto] at hmp
  simp [HTTP.readFresh, hp, hfrag, hproto, hmp, hph, hexp, hcl]

/-- C5 (amended): a delivery on a fresh connection whose request line
fails to parse raises the parse error out of `read`, emitting nothing;
a parseable fragment-free request whose Content-Length header value
fails integer parsing likewise raises `ValueError` out of `read` with
nothing emitted; among malformed inputs only a parseable request line
whose target carries a fragment is answered, with a 400 `HTTPError`. -/
theorem c5_malformed_handling (sp : Int × Int) (st : ClientsMap) (sock : Nat)
    (data : Str) (hlk : cmLookup st sock = none) :
    (∀ e, parseFirst data = .error e → HTTP.read sp st sock data = .error e) ∧
    (∀ fl, parseFirst data = .ok fl → fl.frag ≠ [] →
      HTTP.read sp st sock data =
        .ok (cmInsert st sock (freshReq sock fl,
              (mkHTTPErr (freshReq sock fl) (freshResp sock fl) 400).response),
             [Ev.httperror (mkHTTPErr (freshReq sock fl) (freshResp sock fl) 400)]) ∧
      (mkHTTPErr (freshReq sock fl) (freshResp sock fl) 400).code = 400) ∧
    (∀ (fl : FirstLine) (ptl : List Int) (a b : Int) (hs : Headers) (b0 : Str),
      parseFirst data = .ok fl → fl.frag = [] →
      fl.protocol = sp.1 :: ptl →
      pyMin fl.protocol [sp.1, sp.2] = [a, b] →
      parseHeaders fl.rest = (hs, b0) →
      ¬ hGet hs expectKey [] = pstr "100-continue" →
      pyInt (hGet hs clKey (pstr "0")) = none →
      HTTP.read sp st sock data = .error .valueError) := by
  refine ⟨?_, ?_, ?_⟩
  · intro e hp
    rw [read_fresh_case sp st sock data hlk]
    exact readFresh_parse_error sp st sock data e hp
  · intro fl hp hf
    refine ⟨?_, rfl⟩
    rw [read_fresh_case sp st sock data hlk]
    exact readFresh_frag sp st sock data fl hp hf
  · intro fl ptl a b hs b0 hp hfrag hproto hmp hph hexp hcl
    rw [read_fresh_case sp st sock data hlk]
    exact readFresh_badCL sp st sock data fl ptl a b hs b0 hp hfrag hproto hmp hph
      hexp hcl

/-- C5 witness: the amended statement applied to two concrete fresh
deliveries — one whose request line lacks a protocol token, one whose
Content-Length value is not a number; both raise `ValueError` out of
`read`. -/
theorem c5_witness :
    HTTP.read (1, 1) [] 0 c5CexData = .error .valueError ∧
    HTTP.read (1, 1) [] 0 (pstr "GET / HTTP/1.1\nContent-Length: x\r\n\r\n") =
      .error .valueError :=
  ⟨(c5_malformed_handling (1, 1) [] 0 c5CexData rfl).1 .valueError rfl,
   (c5_malformed_handling (1, 1) [] 0
       (pstr "GET / HTTP/1.1\nContent-Length: x\r\n\r\n") rfl).2.2
     ⟨pstr "GET", [], pstr "/", [], [], [], [1, 1], pstr "Content-Length: x\r\n\r\n"⟩
     [1] 1 1 [(pstr "Content-Length", pstr "x")] []
     rfl rfl rfl rfl rfl (by decide) rfl⟩

/-- C1 counterexample: the claim says a major-version-mismatch request
always yields 505 and never 400; a request whose target carries a
fragment and whose protocol is `HTTP/2.0` is answered with 400, the
fragment check running before the version check. -/
theorem c1_counterexample :
    mismatchGot400 (HTTP.read (1, 1) [] 0 c1CexData) = true := rfl

/-- C1 (amended): for every parseable request without a fragment in
its target whose major version differs from the server's, `read`
pushes exactly one `HTTPError` event, with status 505 (in particular
not 400), and no completed-request event is pushed for that request —
neither on this read nor on any later nonempty delivery buffered into
the rejected request. -/
theorem c1_version_mismatch_505 (sp : Int × Int) (st : ClientsMap) (sock : Nat)
    (data : Str) (fl : FirstLine) (pmaj : Int) (ptl : List Int)
    (hlk : cmLookup st sock = none)
    (hp : parseFirst data = .ok fl) (hfrag : fl.frag = [])
    (hproto : fl.protocol = pmaj :: ptl) (hmaj : pmaj ≠ sp.1) :
    (mkHTTPErr (freshReq sock fl) (freshResp sock fl) 505).code = 505 ∧
    (mkHTTPErr (freshReq sock fl) (freshResp sock fl) 505).code ≠ 400 ∧
    HTTP.read sp st sock data =
      .ok (cmInsert st sock (freshReq sock fl,
            (mkHTTPErr (freshReq sock fl) (freshResp sock fl) 505).response),
           [Ev.httperror (mkHTTPErr (freshReq sock fl) (freshResp sock fl) 505)]) ∧
    (∀ ds : List Str, (∀ d ∈ ds, d ≠ []) →
      ∃ st2, HTTP.readMany sp sock
        (cmInsert st sock (freshReq sock fl,
          (mkHTTPErr (freshReq sock fl) (freshResp sock fl) 505).response)) ds =
        .ok (st2, [])) := by
  refine ⟨rfl, ?_, ?_, ?_⟩
  · exact (by decide : (505 : Nat) ≠ 400)
  · rw [read_fresh_case sp st sock data hlk]
    exact readFresh_505 sp st sock data fl pmaj ptl hp hfrag hproto hmaj
  · intro ds hds
    exact readMany_buffered_silent sp sock ds _ (freshReq sock fl) _
      (cmLookup_cmInsert_self _ _ _) rfl rfl hds

/-- C1 witness: the amended statement applied to a concrete fragment-
free `HTTP/2.0` request against the `(1, 1)` server. -/
theorem c1_witness :
    (mkHTTPErr (freshReq 0 ⟨pstr "GET", [], pstr "/x", [], [], [], [2, 0], pstr "Host: a\r\n\r\n"⟩)
        (freshResp 0 ⟨pstr "GET", [], pstr "/x", [], [], [], [2, 0], pstr "Host: a\r\n\r\n"⟩) 505).code = 505 ∧
    (mkHTTPErr (freshReq 0 ⟨pstr "GET", [], pstr "/x", [], [], [], [2, 0], pstr "Host: a\r\n\r\n"⟩)
        (freshResp 0 ⟨pstr "GET", [], pstr "/x", [], [], [], [2, 0], pstr "Host: a\r\n\r\n"⟩) 505).code ≠ 400 ∧
    HTTP.read (1, 1) [] 0 (pstr "GET /x HTTP/2.0\nHost: a\r\n\r\n") =
      .ok (cmInsert [] 0 (freshReq 0 ⟨pstr "GET", [], pstr "/x", [], [], [], [2, 0], pstr "Host: a\r\n\r\n"⟩,
            (mkHTTPErr (freshReq 0 ⟨pstr "GET", [], pstr "/x", [], [], [], [2, 0], pstr "Host: a\r\n\r\n"⟩)
              (freshResp 0 ⟨pstr "GET", [], pstr "/x", [], [], [], [2, 0], pstr "Host: a\r\n\r\n"⟩) 505).response),
           [Ev.httperror (mkHTTPErr (freshReq 0 ⟨pstr "GET", [], pstr "/x", [], [], [], [2, 0], pstr "Host: a\r\n\r\n"⟩)
              (freshResp 0 ⟨pstr "GET", [], pstr "/x", [], [], [], [2, 0], pstr "Host: a\r\n\r\n"⟩) 505)]) ∧
    (∀ ds : List Str, (∀ d ∈ ds, d ≠ []) →
      ∃ st2, HTTP.readMany (1, 1) 0
        (cmInsert [] 0 (freshReq 0 ⟨pstr "GET", [], pstr "/x", [], [], [], [2, 0], pstr "Host: a\r\n\r\n"⟩,
          (mkHTTPErr (freshReq 0 ⟨pstr "GET", [], pstr "/x", [], [], [], [2, 0], pstr "Host: a\r\n\r\n"⟩)
            (freshResp 0 ⟨pstr "GET", [], pstr "/x", [], [], [], [2, 0], pstr "Host: a\r\n\r\n"⟩) 505).response)) ds =
        .ok (st2, [])) :=
  c1_version_mismatch_505 (1, 1) [] 0 (pstr "GET /x HTTP/2.0\nHost: a\r\n\r\n")
    ⟨pstr "GET", [], pstr "/x", [], [], [], [2, 0], pstr "Host: a\r\n\r\n"⟩ 2 [0]
    rfl rfl rfl rfl (by decide)

/-- C3 counterexample: the claim says no Connection Table entry is
created or persists for a fragment-bearing request; on the code the
pair is registered at line 134 before the fragment check and is not
removed, so after the 400 is pushed an entry for the connection is
present. -/
theorem c3_counterexample :
    got400WithEntry (HTTP.read (1, 1) [] 0 c3CexData) = true := rfl

/-- C3 (amended): a fragment in the parsed target makes `read` push a
400 `HTTPError` and stop — but the (Request, Response) entry has
already been inserted and remains in the Connection Table, its
response not yet done; subsequent nonempty deliveries are buffered
into the rejected request's body without any event, so they are never
dispatched and never misread as a new request while the entry lives. -/
theorem c3_fragment_rejected (sp : Int × Int) (st : ClientsMap) (sock : Nat)
    (data : Str) (fl : FirstLine)
    (hlk : cmLookup st sock = none)
    (hp : parseFirst data = .ok fl) (hf : fl.frag ≠ []) :
    HTTP.read sp st sock data =
      .ok (cmInsert st sock (freshReq sock fl,
            (mkHTTPErr (freshReq sock fl) (freshResp sock fl) 400).response),
           [Ev.httperror (mkHTTPErr (freshReq sock fl) (freshResp sock fl) 400)]) ∧
    (mkHTTPErr (freshReq sock fl) (freshResp sock fl) 400).code = 400 ∧
    cmLookup (cmInsert st sock (freshReq sock fl,
        (mkHTTPErr (freshReq sock fl) (freshResp sock fl) 400).response)) sock =
      some (freshReq sock fl,
        (mkHTTPErr (freshReq sock fl) (freshResp sock fl) 400).response) ∧
    (mkHTTPErr (freshReq sock fl) (freshResp sock fl) 400).response.done = false ∧
    (∀ ds : List Str, (∀ d ∈ ds, d ≠ []) →
      ∃ st2, HTTP.readMany sp sock
        (cmInsert st sock (freshReq sock fl,
          (mkHTTPErr (freshReq sock fl) (freshResp sock fl) 400).response)) ds =
        .ok (st2, [])) := by
  refine ⟨?_, rfl, cmLookup_cmInsert_self _ _ _, rfl, ?_⟩
  · rw [read_fresh_case sp st sock data hlk]
    exact readFresh_frag sp st sock data fl hp hf
  · intro ds hds
    exact readMany_buffered_silent sp sock ds _ (freshReq sock fl) _
      (cmLookup_cmInsert_self _ _ _) rfl rfl hds

/-- C3 witness: the amended statement applied to the concrete
fragment-bearing request. -/
theorem c3_witness :
    HTTP.read (1, 1) [] 0 c3CexData =
      .ok (cmInsert [] 0 (freshReq 0 ⟨pstr "GET", [], pstr "/p", [], [], pstr "f", [1, 1], pstr "Host: a\r\n\r\n"⟩,
            (mkHTTPErr (freshReq 0 ⟨pstr "GET", [], pstr "/p", [], [], pstr "f", [1, 1], pstr "Host: a\r\n\r\n"⟩)
              (freshResp 0 ⟨pstr "GET", [], pstr "/p", [], [], pstr "f", [1, 1], pstr "Host: a\r\n\r\n"⟩) 400).response),
           [Ev.httperror (mkHTTPErr (freshReq 0 ⟨pstr "GET", [], pstr "/p", [], [], pstr "f", [1, 1], pstr "Host: a\r\n\r\n"⟩)
              (freshResp 0 ⟨pstr "GET", [], pstr "/p", [], [], pstr "f", [1, 1], pstr "Host: a\r\n\r\n"⟩) 400)]) ∧
    (mkHTTPErr (freshReq 0 ⟨pstr "GET", [], pstr "/p", [], [], pstr "f", [1, 1], pstr "Host: a\r\n\r\n"⟩)
        (freshResp 0 ⟨pstr "GET", [], pstr "/p", [], [], pstr "f", [1, 1], pstr "Host: a\r\n\r\n"⟩) 400).code = 400 ∧
    cmLookup (cmInsert [] 0 (freshReq 0 ⟨pstr "GET", [], pstr "/p", [], [], pstr "f", [1, 1], pstr "Host: a\r\n\r\n"⟩,
        (mkHTTPErr (freshReq 0 ⟨pstr "GET", [], pstr "/p", [], [], pstr "f", [1, 1], pstr "Host: a\r\n\r\n"⟩)
          (freshResp 0 ⟨pstr "GET", [], pstr "/p", [], [], pstr "f", [1, 1], pstr "Host: a\r\n\r\n"⟩) 400).response)) 0 =
      some (freshReq 0 ⟨pstr "GET", [], pstr "/p", [], [], pstr "f", [1, 1], pstr "Host: a\r\n\r\n"⟩,
        (mkHTTPErr (freshReq 0 ⟨pstr "GET", [], pstr "/p", [], [], pstr "f", [1, 1], pstr "Host: a\r\n\r\n"⟩)
          (freshResp 0 ⟨pstr "GET", [], pstr "/p", [], [], pstr "f", [1, 1], pstr "Host: a\r\n\r\n"⟩) 400).response) ∧
    (mkHTTPErr (freshReq 0 ⟨pstr "GET", [], pstr "/p", [], [], pstr "f", [1, 1], pstr "Host: a\r\n\r\n"⟩)
        (freshResp 0 ⟨pstr "GET", [], pstr "/p", [], [], pstr "f", [1, 1], pstr "Host: a\r\n\r\n"⟩) 400).response.done = false ∧
    (∀ ds : List Str, (∀ d ∈ ds, d ≠ []) →
      ∃ st2, HTTP.readMany (1, 1) 0
        (cmInsert [] 0 (freshReq 0 ⟨pstr "GET", [], pstr "/p", [], [], pstr "f", [1, 1], pstr "Host: a\r\n\r\n"⟩,
          (mkHTTPErr (freshReq 0 ⟨pstr "GET", [], pstr "/p", [], [], pstr "f", [1, 1], pstr "Host: a\r\n\r\n"⟩)
            (freshResp 0 ⟨pstr "GET", [], pstr "/p", [], [], pstr "f", [1, 1], pstr "Host: a\r\n\r\n"⟩) 400).response)) ds =
        .ok (st2, [])) :=
  c3_fragment_rejected (1, 1) [] 0 c3CexData
    ⟨pstr "GET", [], pstr "/p", [], [], pstr "f", [1, 1], pstr "Host: a\r\n\r\n"⟩
    rfl rfl (by decide)

/-- C4 counterexample: the claim keys persistence on the negotiated
(minimum) protocol; a complete `HTTP/1.2` request without a
`Connection` header negotiates to HTTP/1.1, for which the claim says
`close = false`, but the code tests the client tuple against `(1, 1)`
and so marks the response to close. -/
theorem c4_counterexample :
    negotiated11ClosedAnyway (HTTP.read (1, 1) [] 0 c4CexData) = true := rfl

/-- C4 (amended): on completion the close decision is keyed on the
client's protocol tuple being exactly `(1, 1)`, not on the negotiated
minimum: if the client protocol is `(1, 1)`, `close` is set exactly
when the `Connection` header equals `close` case-insensitively;
otherwise `close` is set exactly when it does not equal `keep-alive`
case-insensitively, so the default is close. -/
theorem c4_persistence_policy (sp : Int × Int) (st : ClientsMap) (sock : Nat)
    (data : Str) (fl : FirstLine) (ptl : List Int) (a b : Int)
    (hs : Headers) (b0 : Str) (L : Int)
    (hlk : cmLookup st sock = none)
    (hp : parseFirst data = .ok fl) (hfrag : fl.frag = [])
    (hproto : fl.protocol = sp.1 :: ptl)
    (hmp : pyMin fl.protocol [sp.1, sp.2] = [a, b])
    (hph : parseHeaders fl.rest = (hs, b0))
    (hexp : ¬ hGet hs expectKey [] = pstr "100-continue")
    (hcl : pyInt (hGet hs clKey (pstr "0")) = some L)
    (heq : (b0.length : Int) = L) :
    HTTP.read sp st sock data =
      .ok (cmInsert st sock
            ({ assembledReq sock fl hs b0 with body := ⟨b0, 0⟩ },
             { negoResp sock fl a b with
                 close := HTTP.computeClose fl.protocol hs false }),
           [Ev.requestEv { assembledReq sock fl hs b0 with body := ⟨b0, 0⟩ }
              { negoResp sock fl a b with
                  close := HTTP.computeClose fl.protocol hs false }]) ∧
    (fl.protocol = [1, 1] →
      (HTTP.computeClose fl.protocol hs false = true ↔
        pyLower (hGet hs connKey []) = pstr "close")) ∧
    (fl.protocol ≠ [1, 1] →
      (HTTP.computeClose fl.protocol hs false = true ↔
        ¬ pyLower (hGet hs connKey []) = pstr "keep-alive")) := by
  refine ⟨?_, ?_, ?_⟩
  · rw [read_fresh_case sp st sock data hlk]
    exact readFresh_complete sp st sock data fl ptl a b hs b0 L hp hfrag hproto hmp
      hph hexp hcl heq
  · intro h11
    by_cases hc : pyLower (hGet hs connKey []) = pstr "close" <;>
      simp [HTTP.computeClose, h11, hc]
  · intro h11
    by_cases hc : pyLower (hGet hs connKey []) = pstr "keep-alive" <;>
      simp [HTTP.computeClose, h11, hc]

/-- C4 witness: the amended statement applied to the concrete complete
`HTTP/1.2` request without a `Connection` header. -/
theorem c4_witness :
    HTTP.read (1, 1) [] 0 c4CexData =
      .ok (cmInsert [] 0
            ({ assembledReq 0 ⟨pstr "GET", [], pstr "/", [], [], [], [1, 2], pstr "Content-Length: 0\r\n\r\n"⟩
                 [(pstr "Content-Length", pstr "0")] [] with body := ⟨[], 0⟩ },
             { negoResp 0 ⟨pstr "GET", [], pstr "/", [], [], [], [1, 2], pstr "Content-Length: 0\r\n\r\n"⟩ 1 1 with
                 close := HTTP.computeClose [1, 2] [(pstr "Content-Length", pstr "0")] false }),
           [Ev.requestEv
              { assembledReq 0 ⟨pstr "GET", [], pstr "/", [], [], [], [1, 2], pstr "Content-Length: 0\r\n\r\n"⟩
                  [(pstr "Content-Length", pstr "0")] [] with body := ⟨[], 0⟩ }
              { negoResp 0 ⟨pstr "GET", [], pstr "/", [], [], [], [1, 2], pstr "Content-Length: 0\r\n\r\n"⟩ 1 1 with
                  close := HTTP.computeClose [1, 2] [(pstr "Content-Length", pstr "0")] false }]) ∧
    ([1, 2] = ([1, 1] : List Int) →
      (HTTP.computeClose [1, 2] [(pstr "Content-Length", pstr "0")] false = true ↔
        pyLower (hGet [(pstr "Content-Length", pstr "0")] connKey []) = pstr "close")) ∧
    (([1, 2] : List Int) ≠ [1, 1] →
      (HTTP.computeClose [1, 2] [(pstr "Content-Length", pstr "0")] false = true ↔
        ¬ pyLower (hGet [(pstr "Content-Length", pstr "0")] connKey []) = pstr "keep-alive")) :=
  c4_persistence_policy (1, 1) [] 0 c4CexData
    ⟨pstr "GET", [], pstr "/", [], [], [], [1, 2], pstr "Content-Length: 0\r\n\r\n"⟩
    [2] 1 1 [(pstr "Content-Length", pstr "0")] [] 0
    rfl rfl rfl rfl rfl rfl (by decide) rfl rfl

/-- C2 counterexample: the claim hands every Content-Length request to
the application exactly when its body holds L bytes; a request with
`Expect: 100-continue` whose full 2-byte body already arrives in the
first delivery is answered with the interim reply only — its body
holds exactly the declared 2 bytes yet no completed-request event is
pushed. -/
theorem c2_counterexample :
    bodyFullNotDispatched (HTTP.read (1, 1) [] 0 c2CexData) = true := rfl

/-- C2 (amended): for a request declaring Content-Length `L` and not
taking the `Expect: 100-continue` early return, the completed-request
event is pushed exactly on the delivery whose bytes bring the
accumulated body to exactly `L`; the dispatched request's body is the
concatenation of the header remainder and all delivered chunks,
rewound to offset 0, so its contents are independent of how the bytes
were split across 1, 2 or N deliveries. -/
theorem c2_content_length_assembly (sp : Int × Int) (st : ClientsMap) (sock : Nat)
    (data0 : Str) (fl : FirstLine) (ptl : List Int) (a b : Int)
    (hs : Headers) (b0 : Str) (L : Int) (cs : List Str)
    (hlk : cmLookup st sock = none)
    (hp : parseFirst data0 = .ok fl) (hfrag : fl.frag = [])
    (hproto : fl.protocol = sp.1 :: ptl)
    (hmp : pyMin fl.protocol [sp.1, sp.2] = [a, b])
    (hph : parseHeaders fl.rest = (hs, b0))
    (hexp : ¬ hGet hs expectKey [] = pstr "100-continue")
    (hcl : pyInt (hGet hs clKey (pstr "0")) = some L)
    (htot : ((b0.length + (cs.map List.length).sum : Nat) : Int) = L)
    (hpre : ∀ k, k < cs.length →
      ((b0.length + ((cs.take k).map List.length).sum : Nat) : Int) ≠ L) :
    HTTP.readMany sp sock st (data0 :: cs) =
      .ok (cmInsert st sock
            ({ assembledReq sock fl hs b0 with body := ⟨b0 ++ cs.flatten, 0⟩ },
             { negoResp sock fl a b with
                 close := HTTP.computeClose fl.protocol hs false }),
           [Ev.requestEv
              { assembledReq sock fl hs b0 with body := ⟨b0 ++ cs.flatten, 0⟩ }
              { negoResp sock fl a b with
                  close := HTTP.computeClose fl.protocol hs false }]) ∧
    ((b0 ++ cs.flatten).length : Int) = L := by
  have hlenflat : (b0 ++ cs.flatten).length = b0.length + (cs.map List.length).sum := by
    simp [List.length_append, List.length_flatten]
  refine ⟨?_, by rw [hlenflat]; exact_mod_cast htot⟩
  cases cs with
  | nil =>
    have heq : (b0.length : Int) = L := by
      simp only [List.map_nil, List.sum_nil] at htot
      exact_mod_cast htot
    have hstep := read_fresh_case sp st sock data0 hlk
    rw [readFresh_complete sp st sock data0 fl ptl a b hs b0 L hp hfrag hproto hmp
      hph hexp hcl heq] at hstep
    have := readMany_cons_ok sp sock st _ _ data0 [] _ [] hstep (readMany_nil sp sock _)
    simpa using this
  | cons c cs' =>
    have hne0 : (b0.length : Int) ≠ L := by
      have := hpre 0 (by simp)
      simpa using this
    have hstep := read_fresh_case sp st sock data0 hlk
    rw [readFresh_incomplete sp st sock data0 fl ptl a b hs b0 L hp hfrag hproto hmp
      hph hexp hcl hne0] at hstep
    have hrest := readMany_assemble sp sock (c :: cs')
      (cmInsert st sock (assembledReq sock fl hs b0, negoResp sock fl a b))
      (assembledReq sock fl hs b0) (negoResp sock fl a b) L
      (cmLookup_cmInsert_self _ _ _) rfl hcl rfl
      (by simpa [assembledReq, freshReq, mkRequest] using htot)
      (by
        intro k hk
        have := hpre k (by simpa using hk)
        simpa [assembledReq, freshReq, mkRequest] using this)
      (by simp)
    rw [cmInsert_cmInsert] at hrest
    have hall := readMany_cons_ok sp sock st _ _ data0 (c :: cs') [] _ hstep hrest
    simpa [assembledReq, freshReq, mkRequest, negoResp, freshResp, mkResponse]
      using hall

/-- C2 witness: the amended statement applied to a concrete 5-byte
body split across the first delivery (`ab`) and two further chunks
(`cd`, `e`). -/
theorem c2_witness :
    HTTP.readMany (1, 1) 0 [] [pstr "GET / HTTP/1.1\nContent-Length: 5\r\n\r\nab", pstr "cd", pstr "e"] =
      .ok (cmInsert [] 0
            ({ assembledReq 0 ⟨pstr "GET", [], pstr "/", [], [], [], [1, 1], pstr "Content-Length: 5\r\n\r\nab"⟩
                 [(pstr "Content-Length", pstr "5")] (pstr "ab") with
                 body := ⟨pstr "ab" ++ [pstr "cd", pstr "e"].flatten, 0⟩ },
             { negoResp 0 ⟨pstr "GET", [], pstr "/", [], [], [], [1, 1], pstr "Content-Length: 5\r\n\r\nab"⟩ 1 1 with
                 close := HTTP.computeClose [1, 1] [(pstr "Content-Length", pstr "5")] false }),
           [Ev.requestEv
              { assembledReq 0 ⟨pstr "GET", [], pstr "/", [], [], [], [1, 1], pstr "Content-Length: 5\r\n\r\nab"⟩
                  [(pstr "Content-Length", pstr "5")] (pstr "ab") with
                  body := ⟨pstr "ab" ++ [pstr "cd", pstr "e"].flatten, 0⟩ }
              { negoResp 0 ⟨pstr "GET", [], pstr "/", [], [], [], [1, 1], pstr "Content-Length: 5\r\n\r\nab"⟩ 1 1 with
                  close := HTTP.computeClose [1, 1] [(pstr "Content-Length", pstr "5")] false }]) ∧
    (((pstr "ab" ++ [pstr "cd", pstr "e"].flatten).length : Nat) : Int) = 5 :=
  c2_content_length_assembly (1, 1) [] 0
    (pstr "GET / HTTP/1.1\nContent-Length: 5\r\n\r\nab")
    ⟨pstr "GET", [], pstr "/", [], [], [], [1, 1], pstr "Content-Length: 5\r\n\r\nab"⟩
    [1] 1 1 [(pstr "Content-Length", pstr "5")] (pstr "ab") 5 [pstr "cd", pstr "e"]
    rfl rfl rfl rfl rfl rfl (by decide) (by decide) (by decide) (by decide)

/-- C7: a request whose `Expect` header equals `100-continue` (the
comparison is case-sensitive) and whose body is still pending is
answered first with a standalone `100 Continue` response event, before
any completed-request notification; the same request is still
dispatched once later deliveries bring its body to the declared
Content-Length. -/
theorem c7_expect_continue (sp : Int × Int) (st : ClientsMap) (sock : Nat)
    (data0 : Str) (fl : FirstLine) (ptl : List Int) (a b : Int)
    (hs : Headers) (b0 : Str) (L : Int) (cs : List Str)
    (hlk : cmLookup st sock = none)
    (hp : parseFirst data0 = .ok fl) (hfrag : fl.frag = [])
    (hproto : fl.protocol = sp.1 :: ptl)
    (hmp : pyMin fl.protocol [sp.1, sp.2] = [a, b])
    (hph : parseHeaders fl.rest = (hs, b0))
    (hexp : hGet hs expectKey [] = pstr "100-continue")
    (hcl : pyInt (hGet hs clKey (pstr "0")) = some L)
    (hcs : cs ≠ [])
    (htot : ((b0.length + (cs.map List.length).sum : Nat) : Int) = L)
    (hpre : ∀ k, k < cs.length →
      ((b0.length + ((cs.take k).map List.length).sum : Nat) : Int) ≠ L) :
    HTTP.readMany sp sock st (data0 :: cs) =
      .ok (cmInsert st sock
            ({ assembledReq sock fl hs b0 with body := ⟨b0 ++ cs.flatten, 0⟩ },
             { negoResp sock fl a b with
                 close := HTTP.computeClose fl.protocol hs false }),
           [Ev.responseEv (HTTP.simple sock 100 []).1,
            Ev.requestEv
              { assembledReq sock fl hs b0 with body := ⟨b0 ++ cs.flatten, 0⟩ }
              { negoResp sock fl a b with
                  close := HTTP.computeClose fl.protocol hs false }]) ∧
    (HTTP.simple sock 100 []).1.status = pstr "100 Continue" ∧
    (HTTP.simple sock 100 []).1.request = none ∧
    (HTTP.simple sock 100 []).1.sock = sock := by
  refine ⟨?_, rfl, rfl, rfl⟩
  have hstep := read_fresh_case sp st sock data0 hlk
  rw [readFresh_expect sp st sock data0 fl ptl a b hs b0 hp hfrag hproto hmp hph
    hexp] at hstep
  have hrest := readMany_assemble sp sock cs
    (cmInsert st sock (assembledReq sock fl hs b0, negoResp sock fl a b))
    (assembledReq sock fl hs b0) (negoResp sock fl a b) L
    (cmLookup_cmInsert_self _ _ _) rfl hcl rfl
    (by simpa [assembledReq, freshReq, mkRequest] using htot)
    (by
      intro k hk
      have := hpre k hk
      simpa [assembledReq, freshReq, mkRequest] using this)
    hcs
  rw [cmInsert_cmInsert] at hrest
  have hall := readMany_cons_ok sp sock st _ _ data0 cs
    [Ev.responseEv (HTTP.simple sock 100 []).1] _ hstep hrest
  simpa [assembledReq, freshReq, mkRequest, negoResp, freshResp, mkResponse]
    using hall

/-- C7 witness: the statement applied to a concrete request whose
4-byte body follows in a later delivery. -/
theorem c7_witness :
    HTTP.readMany (1, 1) 0 []
        [pstr "GET / HTTP/1.1\nExpect: 100-continue\r\nContent-Length: 4\r\n\r\n", pstr "wxyz"] =
      .ok (cmInsert [] 0
            ({ assembledReq 0
                 ⟨pstr "GET", [], pstr "/", [], [], [], [1, 1], pstr "Expect: 100-continue\r\nContent-Length: 4\r\n\r\n"⟩
                 [(pstr "Expect", pstr "100-continue"), (pstr "Content-Length", pstr "4")] [] with
                 body := ⟨[] ++ [pstr "wxyz"].flatten, 0⟩ },
             { negoResp 0
                 ⟨pstr "GET", [], pstr "/", [], [], [], [1, 1], pstr "Expect: 100-continue\r\nContent-Length: 4\r\n\r\n"⟩ 1 1 with
                 close := HTTP.computeClose [1, 1]
                   [(pstr "Expect", pstr "100-continue"), (pstr "Content-Length", pstr "4")] false }),
           [Ev.responseEv (HTTP.simple 0 100 []).1,
            Ev.requestEv
              { assembledReq 0
                  ⟨pstr "GET", [], pstr "/", [], [], [], [1, 1], pstr "Expect: 100-continue\r\nContent-Length: 4\r\n\r\n"⟩
                  [(pstr "Expect", pstr "100-continue"), (pstr "Content-Length", pstr "4")] [] with
                  body := ⟨[] ++ [pstr "wxyz"].flatten, 0⟩ }
              { negoResp 0
                  ⟨pstr "GET", [], pstr "/", [], [], [], [1, 1], pstr "Expect: 100-continue\r\nContent-Length: 4\r\n\r\n"⟩ 1 1 with
                  close := HTTP.computeClose [1, 1]
                    [(pstr "Expect", pstr "100-continue"), (pstr "Content-Length", pstr "4")] false }]) ∧
    (HTTP.simple 0 100 []).1.status = pstr "100 Continue" ∧
    (HTTP.simple 0 100 []).1.request = none ∧
    (HTTP.simple 0 100 []).1.sock = 0 :=
  c7_expect_continue (1, 1) [] 0
    (pstr "GET / HTTP/1.1\nExpect: 100-continue\r\nContent-Length: 4\r\n\r\n")
    ⟨pstr "GET", [], pstr "/", [], [], [], [1, 1], pstr "Expect: 100-continue\r\nContent-Length: 4\r\n\r\n"⟩
    [1] 1 1 [(pstr "Expect", pstr "100-continue"), (pstr "Content-Length", pstr "4")] [] 4
    [pstr "wxyz"]
    rfl rfl rfl rfl rfl rfl rfl (by decide) (by decide) (by decide) (by decide)

/-- C10: `simple` builds a fresh standalone response (no originating
request) and pushes only a `response` event; after the 100-continue
path of `read` invokes it, the Connection Table still holds the
in-flight (Request, Response) pair unchanged with its `done` flag
false, and the connection's next read appends to that request's
pending body instead of evicting the entry or starting a new
request. -/
theorem c10_simple_frame (sp : Int × Int) (st : ClientsMap) (sock : Nat)
    (data0 : Str) (fl : FirstLine) (ptl : List Int) (a b : Int)
    (hs : Headers) (b0 : Str)
    (hlk : cmLookup st sock = none)
    (hp : parseFirst data0 = .ok fl) (hfrag : fl.frag = [])
    (hproto : fl.protocol = sp.1 :: ptl)
    (hmp : pyMin fl.protocol [sp.1, sp.2] = [a, b])
    (hph : parseHeaders fl.rest = (hs, b0))
    (hexp : hGet hs expectKey [] = pstr "100-continue") :
    HTTP.read sp st sock data0 =
      .ok (cmInsert st sock (assembledReq sock fl hs b0, negoResp sock fl a b),
           [Ev.responseEv (HTTP.simple sock 100 []).1]) ∧
    (HTTP.simple sock 100 []).1.request = none ∧
    cmLookup (cmInsert st sock (assembledReq sock fl hs b0, negoResp sock fl a b)) sock =
      some (assembledReq sock fl hs b0, negoResp sock fl a b) ∧
    (negoResp sock fl a b).done = false ∧
    (∀ (d : Str) (L : Int),
      pyInt (hGet hs clKey (pstr "0")) = some L →
      ((b0.length + d.length : Nat) : Int) ≠ L →
      HTTP.read sp (cmInsert st sock (assembledReq sock fl hs b0, negoResp sock fl a b)) sock d =
        .ok (cmInsert st sock
              ({ assembledReq sock fl hs b0 with
                  body := (assembledReq sock fl hs b0).body.write d },
               negoResp sock fl a b), [])) := by
  refine ⟨?_, rfl, cmLookup_cmInsert_self _ _ _, rfl, ?_⟩
  · rw [read_fresh_case sp st sock data0 hlk]
    exact readFresh_expect sp st sock data0 fl ptl a b hs b0 hp hfrag hproto hmp hph hexp
  · intro d L hclL hne
    rw [read_cont_case sp _ sock d (assembledReq sock fl hs b0) (negoResp sock fl a b)
      (cmLookup_cmInsert_self _ _ _) rfl]
    rw [readCont_incomplete _ sock (assembledReq sock fl hs b0) (negoResp sock fl a b) d L
      hclL hne]
    rw [cmInsert_cmInsert]

/-- C10 witness: the statement applied to the concrete 100-continue
request of the C7 witness. -/
theorem c10_witness :
    HTTP.read (1, 1) [] 0 (pstr "GET / HTTP/1.1\nExpect: 100-continue\r\nContent-Length: 4\r\n\r\n") =
      .ok (cmInsert [] 0
            (assembledReq 0
               ⟨pstr "GET", [], pstr "/", [], [], [], [1, 1], pstr "Expect: 100-continue\r\nContent-Length: 4\r\n\r\n"⟩
               [(pstr "Expect", pstr "100-continue"), (pstr "Content-Length", pstr "4")] [],
             negoResp 0
               ⟨pstr "GET", [], pstr "/", [], [], [], [1, 1], pstr "Expect: 100-continue\r\nContent-Length: 4\r\n\r\n"⟩ 1 1),
           [Ev.responseEv (HTTP.simple 0 100 []).1]) ∧
    (HTTP.simple 0 100 []).1.request = none ∧
    cmLookup (cmInsert [] 0
        (assembledReq 0
           ⟨pstr "GET", [], pstr "/", [], [], [], [1, 1], pstr "Expect: 100-continue\r\nContent-Length: 4\r\n\r\n"⟩
           [(pstr "Expect", pstr "100-continue"), (pstr "Content-Length", pstr "4")] [],
         negoResp 0
           ⟨pstr "GET", [], pstr "/", [], [], [], [1, 1], pstr "Expect: 100-continue\r\nContent-Length: 4\r\n\r\n"⟩ 1 1)) 0 =
      some (assembledReq 0
              ⟨pstr "GET", [], pstr "/", [], [], [], [1, 1], pstr "Expect: 100-continue\r\nContent-Length: 4\r\n\r\n"⟩
              [(pstr "Expect", pstr "100-continue"), (pstr "Content-Length", pstr "4")] [],
            negoResp 0
              ⟨pstr "GET", [], pstr "/", [], [], [], [1, 1], pstr "Expect: 100-continue\r\nContent-Length: 4\r\n\r\n"⟩ 1 1) ∧
    (negoResp 0
        ⟨pstr "GET", [], pstr "/", [], [], [], [1, 1], pstr "Expect: 100-continue\r\nContent-Length: 4\r\n\r\n"⟩ 1 1).done = false ∧
    (∀ (d : Str) (L : Int),
      pyInt (hGet [(pstr "Expect", pstr "100-continue"), (pstr "Content-Length", pstr "4")] clKey (pstr "0")) = some L →
      ((([] : Str).length + d.length : Nat) : Int) ≠ L →
      HTTP.read (1, 1)
          (cmInsert [] 0
            (assembledReq 0
               ⟨pstr "GET", [], pstr "/", [], [], [], [1, 1], pstr "Expect: 100-continue\r\nContent-Length: 4\r\n\r\n"⟩
               [(pstr "Expect", pstr "100-continue"), (pstr "Content-Length", pstr "4")] [],
             negoResp 0
               ⟨pstr "GET", [], pstr "/", [], [], [], [1, 1], pstr "Expect: 100-continue\r\nContent-Length: 4\r\n\r\n"⟩ 1 1)) 0 d =
        .ok (cmInsert [] 0
              ({ assembledReq 0
                   ⟨pstr "GET", [], pstr "/", [], [], [], [1, 1], pstr "Expect: 100-continue\r\nContent-Length: 4\r\n\r\n"⟩
                   [(pstr "Expect", pstr "100-continue"), (pstr "Content-Length", pstr "4")] [] with
                  body := (assembledReq 0
                    ⟨pstr "GET", [], pstr "/", [], [], [], [1, 1], pstr "Expect: 100-continue\r\nContent-Length: 4\r\n\r\n"⟩
                    [(pstr "Expect", pstr "100-continue"), (pstr "Content-Length", pstr "4")] []).body.write d },
               negoResp 0
                 ⟨pstr "GET", [], pstr "/", [], [], [], [1, 1], pstr "Expect: 100-continue\r\nContent-Length: 4\r\n\r\n"⟩ 1 1), [])) :=
  c10_simple_frame (1, 1) [] 0
    (pstr "GET / HTTP/1.1\nExpect: 100-continue\r\nContent-Length: 4\r\n\r\n")
    ⟨pstr "GET", [], pstr "/", [], [], [], [1, 1], pstr "Expect: 100-continue\r\nContent-Length: 4\r\n\r\n"⟩
    [1] 1 1 [(pstr "Expect", pstr "100-continue"), (pstr "Content-Length", pstr "4")] []
    rfl rfl rfl rfl rfl rfl rfl
